import Mathlib

/-!
Verification of the stroke-risk scoring service (`model_service.py`).

The development shallowly embeds the decision logic of the service:

* `preprocess_features` — the feature encoder (`preprocess_features`,
  model_service.py lines 54–141): a loosely-typed record is turned into a
  22-slot numeric vector, with defaults, truthiness coercion and
  categorical string maps.
* `argmax`, `risk_mapping`, `interpret` — the output interpreter inside the
  `/predict` handler (lines 199–237): dispatch on output cardinality,
  argmax/risk-table blending in the 5-class branch, probability thresholds
  in the single-scalar branch.
* `predict` — the handler's control flow (lines 172–254): model-loaded
  check, request-body validation, and conversion of any raised exception
  into a server-error response.

Numbers are modelled as exact rationals (`ℚ`): the service performs only
a handful of multiplications/additions and comparisons, none of which the
specification ties to IEEE rounding.  Python's `float()` applied to a
string is modelled by `floatOfString`, including the `"inf"`/`"infinity"`/
`"nan"` spellings Python accepts (these yield the non-finite values
`PyFloat.inf`/`PyFloat.ninf`/`PyFloat.nan`).  IEEE floating-point
rounding and overflow are deliberately outside the embedding: JSON
numbers are exact rationals (Python's JSON parser can instead produce
`inf` from a literal such as `1e400`, and `float()` on a huge parsed
integer raises `OverflowError`), `floatOfString` returns the exact value
of a numeric literal (Python's `float()` saturates past about `1.8e308`
and accepts digit-group underscores), and the `np.float32` cast the
encoder applies to the finished row (which saturates magnitudes above
about `3.4e38`) is modelled as the identity.  Accordingly no theorem
below asserts finiteness of an encoded value.
-/

/-- A JSON-ish Python value as it can appear in the `features` record:
a (finite) number, a string, or a boolean. -/
inductive PyVal where
  | num : ℚ → PyVal
  | str : String → PyVal
  | bool : Bool → PyVal
deriving DecidableEq

/-- The result of Python's `float(...)`: a finite value, `inf`, `-inf`,
or `nan`. -/
inductive PyFloat where
  | finite : ℚ → PyFloat
  | inf : PyFloat
  | ninf : PyFloat
  | nan : PyFloat
deriving DecidableEq

/-- Whether a `PyFloat` is a finite value. -/
def PyFloat.isFinite : PyFloat → Bool
  | .finite _ => true
  | _ => false

/-- ASCII lower-casing of one character, as Python's `str.lower` acts on
the ASCII range (the only range the service's tables use). -/
def lowerChar (c : Char) : Char :=
  if 'A' ≤ c ∧ c ≤ 'Z' then Char.ofNat (c.toNat + 32) else c

/-- Python's `s.lower()` (restricted to ASCII case folding). -/
def pyLower (s : String) : String :=
  ⟨s.data.map lowerChar⟩

/-- Strip leading and trailing whitespace, as Python's `float(...)` does
to its string argument. -/
def stripChars (cs : List Char) : List Char :=
  ((cs.dropWhile Char.isWhitespace).reverse.dropWhile Char.isWhitespace).reverse

/-- Value of a non-empty list of decimal digit characters. -/
def digitsToNat (cs : List Char) : ℕ :=
  cs.foldl (fun n c => 10 * n + (c.toNat - 48)) 0

/-- Parse an optional exponent suffix (`e`/`E`, optional sign, digits)
and apply it to the already-parsed mantissa `m`.  Empty input means no
exponent. -/
def parseExp (cs : List Char) (m : ℚ) : Option ℚ :=
  match cs with
  | [] => some m
  | c :: rest =>
    if c = 'e' ∨ c = 'E' then
      match rest with
      | '-' :: ds =>
          if ds ≠ [] ∧ ds.all Char.isDigit then some (m / 10 ^ digitsToNat ds) else none
      | '+' :: ds =>
          if ds ≠ [] ∧ ds.all Char.isDigit then some (m * 10 ^ digitsToNat ds) else none
      | ds =>
          if ds ≠ [] ∧ ds.all Char.isDigit then some (m * 10 ^ digitsToNat ds) else none
    else none

/-- Parse an unsigned Python float literal: digits, optionally with a
fractional part, optionally with an exponent.  At least one digit must be
present before the exponent. -/
def parseUFloat (cs : List Char) : Option ℚ :=
  let ip := cs.takeWhile Char.isDigit
  match cs.dropWhile Char.isDigit with
  | '.' :: rest2 =>
      let fp := rest2.takeWhile Char.isDigit
      if ip.isEmpty ∧ fp.isEmpty then none
      else
        parseExp (rest2.dropWhile Char.isDigit)
          ((digitsToNat ip : ℚ) + (digitsToNat fp : ℚ) / 10 ^ fp.length)
  | rest =>
      if ip.isEmpty then none else parseExp rest (digitsToNat ip)

/-- The body of a Python float literal after the optional sign: the
special spellings `inf`, `infinity` and `nan` (already lower-cased), or a
numeric literal. -/
def floatCore (cs : List Char) (neg : Bool) : Option PyFloat :=
  if cs = "inf".toList ∨ cs = "infinity".toList then
    some (if neg then .ninf else .inf)
  else if cs = "nan".toList then some .nan
  else
    match parseUFloat cs with
    | some q => some (.finite (if neg then -q else q))
    | none => none

/-- Python's `float(s)` on a string: strip surrounding whitespace, read an
optional sign, then a float literal (case-insensitive for `inf`/`nan`).
Returns `none` when Python would raise `ValueError`.  The value of a
numeric literal is its exact rational: float64 overflow to `inf` (past
about `1.8e308`) and underscore digit separators are not modelled. -/
def floatOfString (s : String) : Option PyFloat :=
  match stripChars (s.data.map lowerChar) with
  | '+' :: rest => floatCore rest false
  | '-' :: rest => floatCore rest true
  | rest => floatCore rest false

/-- Python's `float(v)` on a record value: numbers pass through, booleans
become 0/1, strings are parsed (and may fail). -/
def pyFloat : PyVal → Option PyFloat
  | .num q => some (.finite q)
  | .bool b => some (.finite (if b then 1 else 0))
  | .str s => floatOfString s

/-- Python truthiness of a record value, as used by `1 if x else 0`:
a number is truthy iff non-zero, a string iff non-empty. -/
def truthy : PyVal → Bool
  | .num q => q ≠ 0
  | .str s => s ≠ ""
  | .bool b => b

/-- The caller-supplied feature record: a JSON object, i.e. an ordered
association list from key to value (keys unique, insertion order kept). -/
abbrev FeatureRecord := List (String × PyVal)

/-- `features.get(k, d)`: the value stored under `k`, or the default `d`
when the key is absent. -/
def getField (features : FeatureRecord) (k : String) (d : PyVal) : PyVal :=
  (List.lookup k features).getD d

/-- The `work_type_map` table of `preprocess_features` (lines 83–89). -/
def work_type_map : List (String × ℚ) :=
  [("private", 0), ("self-employed", 1), ("govt_job", 2), ("children", 3),
   ("never_worked", 4)]

/-- The `gender_map` table of `preprocess_features` (line 108). -/
def gender_map : List (String × ℚ) :=
  [("male", 1), ("female", 0), ("other", 2)]

/-- The `smoking_map` table of `preprocess_features` (lines 115–124). -/
def smoking_map : List (String × ℚ) :=
  [("never smoked", 0), ("never", 0), ("formerly smoked", 1), ("formerly", 1),
   ("smokes", 2), ("regularly smoked", 2), ("current", 2), ("unknown", 3)]

/-- The feature encoder `preprocess_features` (model_service.py lines
54–141).  The 22-slot vector is initialised to zeros; slots 0–9 are then
assigned as in the source, and slots 10–21 stay 0.  Only the three
`float()` coercions of `age`, `avg_glucose_level` and `bmi` can raise
(`none`); every other assignment is pure, so grouping the three fallible
coercions in one match leaves the function unchanged.  The result is the
single row of the `[1, 22]` tensor the source returns; the
`np.array(..., dtype=np.float32)` wrapping at line 141 is modelled as the
identity on the row (float32 rounding and saturation are outside the
embedding). -/
def preprocess_features (features : FeatureRecord) : Option (List PyFloat) :=
  match pyFloat (getField features "age" (.num 50)),
        pyFloat (getField features "avg_glucose_level" (.num 100)),
        pyFloat (getField features "bmi" (.num 25)) with
  | some v0, some v6, some v7 =>
    let v1 : ℚ := if truthy (getField features "hypertension" (.num 0)) then 1 else 0
    let v2 : ℚ := if truthy (getField features "heart_disease" (.num 0)) then 1 else 0
    let v3 : ℚ :=
      match getField features "ever_married" (.num 1) with
      | .str s => if pyLower s == "yes" || pyLower s == "married" then 1 else 0
      | .num q => q
      | .bool b => if b then 1 else 0
    let v4 : ℚ :=
      match getField features "work_type" (.num 0) with
      | .str s => (List.lookup (pyLower s) work_type_map).getD 0
      | .num q => q
      | .bool b => if b then 1 else 0
    let v5 : ℚ :=
      match getField features "Residence_type" (.num 1) with
      | .str s => if pyLower s == "urban" then 1 else 0
      | .num q => q
      | .bool b => if b then 1 else 0
    let v8 : ℚ :=
      match getField features "gender" (.num 0) with
      | .str s => (List.lookup (pyLower s) gender_map).getD 0
      | .num q => q
      | .bool b => if b then 1 else 0
    let v9 : ℚ :=
      match getField features "smoking_status" (.num 0) with
      | .str s => (List.lookup (pyLower s) smoking_map).getD 3
      | .num q => q
      | .bool b => if b then 1 else 0
    some [v0, .finite v1, .finite v2, .finite v3, .finite v4, .finite v5, v6, v7,
          .finite v8, .finite v9, .finite 0, .finite 0, .finite 0, .finite 0,
          .finite 0, .finite 0, .finite 0, .finite 0, .finite 0, .finite 0,
          .finite 0, .finite 0]
  | _, _, _ => none

/-- Running best-index fold behind `argmax`: `best` is the index of the
largest value seen so far, `bestVal` that value, `i` the index of the
head of the remaining list.  A later element replaces the best only when
strictly greater, so ties keep the lowest index — as `np.argmax` does. -/
def argmaxAux : List ℚ → ℕ → ℚ → ℕ → ℕ
  | [], best, _, _ => best
  | x :: xs, best, bestVal, i =>
    if bestVal < x then argmaxAux xs i x (i + 1)
    else argmaxAux xs best bestVal (i + 1)

/-- `np.argmax` on a row: index of the first occurrence of the maximum
(0 on the empty row, which `np.argmax` rejects; the 5-class branch only
applies it to rows of length 5). -/
def argmax : List ℚ → ℕ
  | [] => 0
  | x :: xs => argmaxAux xs 0 x 1

/-- The `risk_mapping` table of the 5-class branch (lines 208–214):
class index ↦ (risk_level, display label, baseline probability). -/
def risk_mapping : List (ℕ × String × String × ℚ) :=
  [(0, ("very_low", "Very Low risk", 1/10)),
   (1, ("low", "Low risk", 3/10)),
   (2, ("moderate", "Moderate risk", 1/2)),
   (3, ("high", "High risk", 7/10)),
   (4, ("very_high", "Very High risk", 9/10))]

/-- `risk_mapping.get(predicted_class, ('moderate', 'Moderate risk', 0.5))`
(line 216). -/
def risk_lookup (c : ℕ) : String × String × ℚ :=
  (List.lookup c risk_mapping).getD ("moderate", "Moderate risk", 1/2)

/-- The interpreter's result: the `risk_level`, `risk_display` and
`probability` variables set by the branch at lines 199–237. -/
structure RiskResult where
  risk_level : String
  risk_display : String
  probability : ℚ
deriving DecidableEq

/-- The output interpreter (lines 199–237), acting on `prediction[0]`,
the single row of the model output.  A row of length 5 takes the
multi-class branch; any other row takes the scalar branch, where
`prediction[0][0]` raises `IndexError` on an empty row (`none`). -/
def interpret (row : List ℚ) : Option RiskResult :=
  if row.length = 5 then
    let predicted_class := argmax row
    let entry := risk_lookup predicted_class
    let confidence := row.getD predicted_class 0
    some ⟨entry.1, entry.2.1, entry.2.2 * confidence + (1 - confidence) * (3/10)⟩
  else
    match row with
    | [] => none
    | p :: _ =>
      if 7/10 ≤ p then some ⟨"high", "High risk", p⟩
      else if 4/10 ≤ p then some ⟨"moderate", "Moderate risk", p⟩
      else some ⟨"low", "Low risk", p⟩

/-- A value inside a JSON object or array of the request body.  The
handler only ever distinguishes a nested object (usable as the `features`
record), a string (the only kind of array element the membership test
`'features' in data` can match; as a `features` value it makes
`features.get(...)` raise `AttributeError`), and any other JSON value
(on which `features.get(...)` also raises `AttributeError`). -/
inductive TopVal where
  | record : FeatureRecord → TopVal
  | strv : String → TopVal
  | other : TopVal
deriving DecidableEq

/-- The fields of the 200 response built at lines 239–248: `probability`,
`risk_level`, the caller-supplied keys (`features_used`), and the raw
output echoed back. -/
structure SuccessResponse where
  probability : ℚ
  risk_level : String
  features_used : List String
  raw_output : List ℚ
deriving DecidableEq

/-- The `/predict` handler's possible responses: a 200 payload, the 400
`Invalid request` response (lines 181–184), the 500 `Model not loaded`
response (lines 173–176), and the 500 `Prediction failed` response the
`except` clause produces from any raised exception (lines 250–254, message
abstracted away — it is the propagated exception text). -/
inductive Response where
  | ok : SuccessResponse → Response
  | invalidRequest : Response
  | modelNotLoaded : Response
  | predictionFailed : Response
deriving DecidableEq

/-- A parsed JSON request body, as `request.get_json()` can produce it:
an object, an array, a string, a number, or a boolean.  (A `null` body is
returned as `None` and is modelled by the surrounding `Option`.) -/
inductive ReqBody where
  | obj : List (String × TopVal) → ReqBody
  | arr : List TopVal → ReqBody
  | strb : String → ReqBody
  | numb : ℚ → ReqBody
  | boolb : Bool → ReqBody
deriving DecidableEq

/-- Python falsiness of a parsed body, as `not data` tests it: empty
containers, the empty string, zero and `False` are falsy. -/
def ReqBody.falsy : ReqBody → Bool
  | .obj d => d.isEmpty
  | .arr l => l.isEmpty
  | .strb s => s.data.isEmpty
  | .numb q => q == 0
  | .boolb b => !b

/-- Python's substring test `pat in s` on character lists, which is what
`'features' not in data` performs when `data` is a string. -/
def listHasSub (pat : List Char) : List Char → Bool
  | [] => pat.isEmpty
  | c :: rest => pat.isPrefixOf (c :: rest) || listHasSub pat rest

/-- The `/predict` handler (lines 152–254).  `model` is the globally
loaded scoring function (`none` when `stroke_model.h5` failed to load),
mapping the encoded input row to the output row `prediction[0]`; `data`
is the parsed JSON body (`none` when no JSON body was supplied).  The
guard `if not data or 'features' not in data` first rejects every falsy
body (missing body, empty object/array/string, zero, `False`) with the
400 response; `'features' not in data` then depends on the body's type:
key membership for an object, element membership for an array, substring
membership for a string, and a `TypeError` for a truthy number or `True`.
That `TypeError` — like every other exception inside the `try` block: a
non-dict `features` value hitting `features.get`, indexing an array or a
string with `data['features']`, a failing `float()` coercion, an
`IndexError` on an empty output row — is converted by the `except`
clause into the 500 `Prediction failed` response. -/
def predict (model : Option (List PyFloat → List ℚ))
    (data : Option ReqBody) : Response :=
  match model with
  | none => .modelNotLoaded
  | some m =>
    match data with
    | none => .invalidRequest
    | some body =>
      if body.falsy then .invalidRequest
      else
        match body with
        | .obj d =>
          match List.lookup "features" d with
          | none => .invalidRequest
          | some (.record features) =>
            match preprocess_features features with
            | none => .predictionFailed
            | some input_data =>
              let prediction := m input_data
              match interpret prediction with
              | none => .predictionFailed
              | some r =>
                .ok ⟨r.probability, r.risk_level, features.map Prod.fst, prediction⟩
          | some _ => .predictionFailed
        | .arr l =>
          if l.contains (TopVal.strv "features") then .predictionFailed
          else .invalidRequest
        | .strb s =>
          if listHasSub ("features".data) s.data then .predictionFailed
          else .invalidRequest
        | .numb _ => .predictionFailed
        | .boolb _ => .predictionFailed

/-- The claim's multi-class risk-level table, written out from the
specification's words: `{0: very_low, 1: low, 2: moderate, 3: high,
4: very_high}`. -/
def riskLevelSpec : ℕ → String
  | 0 => "very_low"
  | 1 => "low"
  | 2 => "moderate"
  | 3 => "high"
  | _ => "very_high"

/-- The display labels paired with `riskLevelSpec`. -/
def riskDisplaySpec : ℕ → String
  | 0 => "Very Low risk"
  | 1 => "Low risk"
  | 2 => "Moderate risk"
  | 3 => "High risk"
  | _ => "Very High risk"

/-- The claim's baseline-probability table, written out from the
specification's words: `{0: 0.1, 1: 0.3, 2: 0.5, 3: 0.7, 4: 0.9}`. -/
def baselineSpec : ℕ → ℚ
  | 0 => 1/10
  | 1 => 3/10
  | 2 => 1/2
  | 3 => 7/10
  | _ => 9/10

/-- The claim's description of the `smoking_status` encoding, written out
from the specification's words: absent ↦ 0, integer (and hence boolean)
passed through, string lower-cased and looked up in the fixed table with
unrecognized strings mapped to 3. -/
def smokingStatusSpec : Option PyVal → ℚ
  | none => 0
  | some (.num q) => q
  | some (.bool b) => if b then 1 else 0
  | some (.str s) =>
      (List.lookup (pyLower s)
        [("never smoked", 0), ("never", 0), ("formerly smoked", 1), ("formerly", 1),
         ("smokes", 2), ("regularly smoked", 2), ("current", 2), ("unknown", 3)]).getD 3

/-! ## Helper lemmas -/

theorem risk_lookup_eq_0 : risk_lookup 0 = ("very_low", "Very Low risk", 1/10) := rfl

theorem risk_lookup_eq_1 : risk_lookup 1 = ("low", "Low risk", 3/10) := rfl

theorem risk_lookup_eq_2 : risk_lookup 2 = ("moderate", "Moderate risk", 1/2) := rfl

theorem risk_lookup_eq_3 : risk_lookup 3 = ("high", "High risk", 7/10) := rfl

theorem risk_lookup_eq_4 : risk_lookup 4 = ("very_high", "Very High risk", 9/10) := rfl

/-- A list of length 5 is an explicit 5-element list. -/
theorem list_five_of_length {l : List ℚ} (h : l.length = 5) :
    ∃ a b c d e, l = [a, b, c, d, e] := by
  rcases l with _ | ⟨a, _ | ⟨b, _ | ⟨c, _ | ⟨d, _ | ⟨e, _ | ⟨f, t⟩⟩⟩⟩⟩⟩ <;>
    simp only [List.length_cons, List.length_nil] at h
  · omega
  · omega
  · omega
  · omega
  · omega
  · exact ⟨a, b, c, d, e, rfl⟩
  · omega

/-- Successful encoding pins the vector down to the ten field encodings
followed by twelve zeros. -/
theorem preprocess_shape {features : FeatureRecord} {v : List PyFloat}
    (h : preprocess_features features = some v) :
    ∃ v0 v6 v7,
      pyFloat (getField features "age" (.num 50)) = some v0 ∧
      pyFloat (getField features "avg_glucose_level" (.num 100)) = some v6 ∧
      pyFloat (getField features "bmi" (.num 25)) = some v7 ∧
      v = [v0,
           .finite (if truthy (getField features "hypertension" (.num 0)) then 1 else 0),
           .finite (if truthy (getField features "heart_disease" (.num 0)) then 1 else 0),
           .finite (match getField features "ever_married" (.num 1) with
             | .str s => if pyLower s == "yes" || pyLower s == "married" then 1 else 0
             | .num q => q
             | .bool b => if b then 1 else 0),
           .finite (match getField features "work_type" (.num 0) with
             | .str s => (List.lookup (pyLower s) work_type_map).getD 0
             | .num q => q
             | .bool b => if b then 1 else 0),
           .finite (match getField features "Residence_type" (.num 1) with
             | .str s => if pyLower s == "urban" then 1 else 0
             | .num q => q
             | .bool b => if b then 1 else 0),
           v6, v7,
           .finite (match getField features "gender" (.num 0) with
             | .str s => (List.lookup (pyLower s) gender_map).getD 0
             | .num q => q
             | .bool b => if b then 1 else 0),
           .finite (match getField features "smoking_status" (.num 0) with
             | .str s => (List.lookup (pyLower s) smoking_map).getD 3
             | .num q => q
             | .bool b => if b then 1 else 0),
           .finite 0, .finite 0, .finite 0, .finite 0, .finite 0, .finite 0,
           .finite 0, .finite 0, .finite 0, .finite 0, .finite 0, .finite 0] := by
  unfold preprocess_features at h
  cases hA : pyFloat (getField features "age" (.num 50)) with
  | none => rw [hA] at h; exact absurd h (by simp)
  | some v0 =>
    cases hG : pyFloat (getField features "avg_glucose_level" (.num 100)) with
    | none => rw [hA, hG] at h; exact absurd h (by simp)
    | some v6 =>
      cases hB : pyFloat (getField features "bmi" (.num 25)) with
      | none => rw [hA, hG, hB] at h; exact absurd h (by simp)
      | some v7 =>
        rw [hA, hG, hB] at h
        exact ⟨v0, v6, v7, rfl, rfl, rfl, (Option.some.inj h).symm⟩

/-- The baseline probability produced by `risk_lookup` is always in
`[0, 1]`, for every index (the table entries and the default alike). -/
theorem risk_lookup_baseline_bounds (n : ℕ) :
    0 ≤ (risk_lookup n).2.2 ∧ (risk_lookup n).2.2 ≤ 1 := by
  by_cases h : n < 5
  · interval_cases n <;>
      simp only [risk_lookup_eq_0, risk_lookup_eq_1, risk_lookup_eq_2,
        risk_lookup_eq_3, risk_lookup_eq_4] <;> norm_num
  · have e0 : (n == 0) = false := by simp; omega
    have e1 : (n == 1) = false := by simp; omega
    have e2 : (n == 2) = false := by simp; omega
    have e3 : (n == 3) = false := by simp; omega
    have e4 : (n == 4) = false := by simp; omega
    simp only [risk_lookup, risk_mapping, List.lookup, e0, e1, e2, e3, e4]
    norm_num

/-! ## Claim theorems -/

/-- Claim C2: in the single-scalar path the risk level is derived from the
returned probability `p` by three non-overlapping thresholds — `p ≥ 0.7`
gives `high`, `0.4 ≤ p < 0.7` gives `moderate`, `p < 0.4` gives `low` —
and the probability is returned unchanged. -/
theorem scalar_threshold_levels (p : ℚ) :
    (7/10 ≤ p → interpret [p] = some ⟨"high", "High risk", p⟩) ∧
    (4/10 ≤ p → p < 7/10 → interpret [p] = some ⟨"moderate", "Moderate risk", p⟩) ∧
    (p < 4/10 → interpret [p] = some ⟨"low", "Low risk", p⟩) := by
  have hstep : interpret [p]
      = if 7/10 ≤ p then some ⟨"high", "High risk", p⟩
        else if 4/10 ≤ p then some ⟨"moderate", "Moderate risk", p⟩
        else some ⟨"low", "Low risk", p⟩ := rfl
  refine ⟨fun h => ?_, fun h1 h2 => ?_, fun h => ?_⟩ <;> rw [hstep]
  · rw [if_pos h]
  · rw [if_neg (by linarith), if_pos h1]
  · rw [if_neg (by linarith), if_neg (by linarith)]

/-- Witness for C2 at the boundary probabilities: exactly 0.7 is `high`
and exactly 0.4 is `moderate`. -/
theorem scalar_threshold_levels_witness :
    interpret [(7:ℚ)/10] = some ⟨"high", "High risk", 7/10⟩ ∧
    interpret [(4:ℚ)/10] = some ⟨"moderate", "Moderate risk", 4/10⟩ :=
  ⟨(scalar_threshold_levels (7/10)).1 (by norm_num),
   (scalar_threshold_levels (4/10)).2.1 (by norm_num) (by norm_num)⟩

/-- Counterexample to C3 as stated: the empty output row has cardinality
≠ 5, yet the interpreter does not return `output[0]` — `prediction[0][0]`
raises `IndexError` (modelled as `none`), so no probability is produced. -/
theorem empty_output_counterexample :
    interpret ([] : List ℚ) = none ∧ ([] : List ℚ).length ≠ 5 :=
  ⟨rfl, by simp⟩

/-- Claim C3 (amended): for every NON-EMPTY output row whose cardinality
is not 5 — including unexpected cardinalities 2, 3 or 4 — the interpreter
takes the single-scalar branch and returns `probability = output[0]` with
no transform, with one of the scalar-branch levels; no
`UnhandledOutputShape` failure exists in the code.  (The empty row instead
raises `IndexError`.) -/
theorem scalar_branch_other_cardinalities (row : List ℚ) (hne : row ≠ [])
    (h5 : row.length ≠ 5) :
    ∃ r, interpret row = some r ∧ r.probability = row.getD 0 0 ∧
      (r.risk_level = "high" ∨ r.risk_level = "moderate" ∨ r.risk_level = "low") := by
  rcases row with _ | ⟨p, rest⟩
  · exact absurd rfl hne
  · have hstep : interpret (p :: rest)
        = if 7/10 ≤ p then some ⟨"high", "High risk", p⟩
          else if 4/10 ≤ p then some ⟨"moderate", "Moderate risk", p⟩
          else some ⟨"low", "Low risk", p⟩ := by
      unfold interpret
      rw [if_neg h5]
    rw [hstep]
    split_ifs
    · exact ⟨_, rfl, rfl, Or.inl rfl⟩
    · exact ⟨_, rfl, rfl, Or.inr (Or.inl rfl)⟩
    · exact ⟨_, rfl, rfl, Or.inr (Or.inr rfl)⟩

/-- Witness for the amended C3 at a cardinality-3 output. -/
theorem scalar_branch_other_cardinalities_witness :
    ∃ r, interpret [(1:ℚ)/2, 9/10, 9/10] = some r ∧
      r.probability = [(1:ℚ)/2, 9/10, 9/10].getD 0 0 ∧
      (r.risk_level = "high" ∨ r.risk_level = "moderate" ∨ r.risk_level = "low") :=
  scalar_branch_other_cardinalities [1/2, 9/10, 9/10] (by simp) (by simp)

/-- Claim C5: the empty record encodes with every documented default —
age 50, avg_glucose_level 100, bmi 25, ever_married 1, Residence_type 1,
and 0 everywhere else. -/
theorem encode_empty_record_defaults :
    preprocess_features [] =
      some [PyFloat.finite 50, .finite 0, .finite 0, .finite 1, .finite 0, .finite 1,
            .finite 100, .finite 25, .finite 0, .finite 0, .finite 0, .finite 0,
            .finite 0, .finite 0, .finite 0, .finite 0, .finite 0, .finite 0,
            .finite 0, .finite 0, .finite 0, .finite 0] := by decide

/-- Claim C9: encoding is not total even with every key present — a
numeric field holding an unparseable string (here `age = "unknown"`) makes
the `float()` coercion raise, so no 22-element vector is returned. -/
theorem encode_unparseable_age_fails :
    preprocess_features
      [("age", PyVal.str "unknown"), ("hypertension", PyVal.num 1),
       ("heart_disease", PyVal.num 0), ("ever_married", PyVal.str "Yes"),
       ("work_type", PyVal.str "Private"), ("Residence_type", PyVal.str "Urban"),
       ("avg_glucose_level", PyVal.num 120), ("bmi", PyVal.num 28),
       ("gender", PyVal.str "Male"), ("smoking_status", PyVal.str "smokes")]
      = none := by decide

/-- Counterexample to C7 as stated: the JSON body `5` lacks the top-level
`features` structure, yet the service answers with the 500 `Prediction
failed` response, not a 400 client error — `'features' not in 5` raises
`TypeError` inside the `try` block. -/
theorem nonobject_body_counterexample :
    predict (some fun _ => [1/2]) (some (ReqBody.numb 5)) = Response.predictionFailed ∧
    Response.predictionFailed ≠ Response.invalidRequest :=
  ⟨by decide, by decide⟩

/-- Claim C7 (amended): whenever the parsed JSON body is absent, or is an
object without the top-level `features` key, or is an array with no
`"features"` string element, or is a string not containing `"features"`,
the service returns the 400 `Invalid request` response; the result is the
same constant for every scoring function, so no encoding, scoring or
interpretation takes place.  (A truthy number or `True` body — which also
lacks the `features` structure — instead raises `TypeError` and is
answered with the 500 response, as the counterexample records.) -/
theorem missing_features_object_rejected (score : List PyFloat → List ℚ) :
    predict (some score) none = Response.invalidRequest ∧
    (∀ d : List (String × TopVal), List.lookup "features" d = none →
      predict (some score) (some (.obj d)) = Response.invalidRequest) ∧
    (∀ l : List TopVal, l.contains (TopVal.strv "features") = false →
      predict (some score) (some (.arr l)) = Response.invalidRequest) ∧
    (∀ s : String, listHasSub ("features".data) s.data = false →
      predict (some score) (some (.strb s)) = Response.invalidRequest) := by
  refine ⟨rfl, fun d hd => ?_, fun l hl => ?_, fun s hs => ?_⟩
  · rcases d with _ | ⟨x, xs⟩
    · rfl
    · simp [predict, ReqBody.falsy, hd]
  · rcases l with _ | ⟨x, xs⟩
    · rfl
    · simp at hl
      simp [predict, ReqBody.falsy, hl]
  · cases he : s.data.isEmpty with
    | true => simp [predict, ReqBody.falsy, he]
    | false => simp [predict, ReqBody.falsy, he, hs]

/-- Witness for the amended C7: a missing body, an object with only an
unrelated key, an array without a `"features"` element, and a string not
containing `"features"`. -/
theorem missing_features_object_rejected_witness :
    predict (some fun _ => [1/2]) none = Response.invalidRequest ∧
    predict (some fun _ => [1/2]) (some (.obj [("payload", TopVal.other)]))
      = Response.invalidRequest ∧
    predict (some fun _ => [1/2]) (some (.arr [TopVal.other])) = Response.invalidRequest ∧
    predict (some fun _ => [1/2]) (some (.strb "no such key")) = Response.invalidRequest := by
  have h := missing_features_object_rejected (fun _ => [1/2])
  exact ⟨h.1, h.2.1 _ (by decide), h.2.2.1 _ (by decide), h.2.2.2 _ (by decide)⟩

/-- Claim C10: for every 5-element output the argmax index lies in
{0, …, 4}, so the `risk_mapping` lookup always succeeds and the supplied
default entry is never used. -/
theorem argmax_lookup_never_defaults (out : List ℚ) (h : out.length = 5) :
    argmax out < 5 ∧ (List.lookup (argmax out) risk_mapping).isSome = true := by
  obtain ⟨a, b, c, d, e, rfl⟩ := list_five_of_length h
  have h5 : argmax [a, b, c, d, e] < 5 := by
    simp only [argmax, argmaxAux]
    split_ifs <;> norm_num
  refine ⟨h5, ?_⟩
  set k := argmax [a, b, c, d, e] with hk
  interval_cases k <;> rfl

/-- Witness for C10 at a concrete 5-element output. -/
theorem argmax_lookup_never_defaults_witness :
    argmax [0, 0, 1, 0, 0] < 5 ∧
    (List.lookup (argmax [0, 0, 1, 0, 0]) risk_mapping).isSome = true :=
  argmax_lookup_never_defaults [0, 0, 1, 0, 0] rfl

/-- Claim C1: for every 5-element output the interpreter picks the argmax
class (ties to the lowest index), takes its confidence `output[c]`, reads
the baseline and risk level from the fixed table, and returns probability
`baseline * confidence + 0.3 * (1 - confidence)`. -/
theorem multiclass_interpret_spec (out : List ℚ) (h : out.length = 5) :
    argmax out < 5 ∧
    (∀ i, i < 5 → out.getD i 0 ≤ out.getD (argmax out) 0) ∧
    (∀ i, i < argmax out → out.getD i 0 < out.getD (argmax out) 0) ∧
    interpret out = some ⟨riskLevelSpec (argmax out), riskDisplaySpec (argmax out),
      baselineSpec (argmax out) * out.getD (argmax out) 0 +
        3/10 * (1 - out.getD (argmax out) 0)⟩ := by
  obtain ⟨a, b, c, d, e, rfl⟩ := list_five_of_length h
  have hstep : interpret [a, b, c, d, e]
      = some ⟨(risk_lookup (argmax [a, b, c, d, e])).1,
              (risk_lookup (argmax [a, b, c, d, e])).2.1,
              (risk_lookup (argmax [a, b, c, d, e])).2.2 *
                  [a, b, c, d, e].getD (argmax [a, b, c, d, e]) 0 +
                (1 - [a, b, c, d, e].getD (argmax [a, b, c, d, e]) 0) * (3/10)⟩ := rfl
  rw [hstep]
  simp only [argmax, argmaxAux]
  split_ifs <;>
    refine ⟨by norm_num, fun i hi => ?_, fun i hi => ?_, ?_⟩ <;>
    try (interval_cases i <;>
      simp only [List.getD_cons_zero, List.getD_cons_succ] <;> linarith)
  all_goals
    simp only [Nat.reduceAdd, risk_lookup_eq_0, risk_lookup_eq_1, risk_lookup_eq_2,
      risk_lookup_eq_3, risk_lookup_eq_4, riskLevelSpec, riskDisplaySpec, baselineSpec,
      List.getD_cons_zero, List.getD_cons_succ, Option.some.injEq, RiskResult.mk.injEq]
  all_goals refine ⟨?_, ?_, ?_⟩ <;> first | trivial | ring

/-- Witness for C1 at Scenario C: output `[0.05, 0.10, 0.15, 0.60, 0.10]`
has argmax index 3 (`high`), confidence 0.60, probability 0.54. -/
theorem multiclass_interpret_spec_witness :
    argmax [1/20, 1/10, 3/20, 3/5, 1/10] = 3 ∧
    interpret [1/20, 1/10, 3/20, 3/5, 1/10] = some ⟨"high", "High risk", 27/50⟩ := by
  have h := multiclass_interpret_spec [1/20, 1/10, 3/20, 3/5, 1/10] rfl
  have ha : argmax [1/20, 1/10, 3/20, 3/5, 1/10] = 3 := by
    norm_num [argmax, argmaxAux]
  refine ⟨ha, ?_⟩
  have h4 := h.2.2.2
  rw [ha] at h4
  rw [h4]
  norm_num [riskLevelSpec, riskDisplaySpec, baselineSpec,
    List.getD_cons_zero, List.getD_cons_succ]

/-- Claim C8: in the multi-class path, whenever the argmax confidence
lies in `[0, 1]`, the returned probability lies in `[0, 1]` (each
baseline of the table, and the lookup default, lies in `[0, 1]`). -/
theorem multiclass_probability_in_unit_interval (out : List ℚ) (r : RiskResult)
    (h5 : out.length = 5) (hr : interpret out = some r)
    (hc0 : 0 ≤ out.getD (argmax out) 0) (hc1 : out.getD (argmax out) 0 ≤ 1) :
    0 ≤ r.probability ∧ r.probability ≤ 1 := by
  have hstep : interpret out
      = some ⟨(risk_lookup (argmax out)).1, (risk_lookup (argmax out)).2.1,
          (risk_lookup (argmax out)).2.2 * out.getD (argmax out) 0 +
            (1 - out.getD (argmax out) 0) * (3/10)⟩ := by
    unfold interpret
    rw [if_pos h5]
  rw [hstep] at hr
  have hre := Option.some.inj hr
  subst hre
  obtain ⟨hb0, hb1⟩ := risk_lookup_baseline_bounds (argmax out)
  constructor
  · have h1 := mul_nonneg hb0 hc0
    simp only []
    nlinarith
  · have h2 := mul_le_mul_of_nonneg_right hb1 hc0
    simp only []
    nlinarith

/-- Witness for C8 at the one-hot output `[1, 0, 0, 0, 0]`. -/
theorem multiclass_probability_in_unit_interval_witness :
    0 ≤ (RiskResult.mk "very_low" "Very Low risk" (1/10)).probability ∧
    (RiskResult.mk "very_low" "Very Low risk" (1/10)).probability ≤ 1 :=
  multiclass_probability_in_unit_interval [1, 0, 0, 0, 0] ⟨"very_low", "Very Low risk", 1/10⟩
    rfl
    (by norm_num [interpret, argmax, argmaxAux, risk_lookup_eq_0,
      List.getD_cons_zero, List.getD_cons_succ])
    (by norm_num [argmax, argmaxAux, List.getD_cons_zero])
    (by norm_num [argmax, argmaxAux, List.getD_cons_zero])

/-- Counterexample to C4 as stated: with `age = "inf"` (a string Python's
`float()` accepts), encoding succeeds but position 0 of the vector is the
non-finite value `inf`. -/
theorem encode_inf_counterexample :
    preprocess_features [("age", PyVal.str "inf")]
      = some [PyFloat.inf, .finite 0, .finite 0, .finite 1, .finite 0, .finite 1,
              .finite 100, .finite 25, .finite 0, .finite 0, .finite 0, .finite 0,
              .finite 0, .finite 0, .finite 0, .finite 0, .finite 0, .finite 0,
              .finite 0, .finite 0, .finite 0, .finite 0] ∧
    PyFloat.isFinite PyFloat.inf = false := by decide

/-- Claim C4 (amended): every successful encoding yields a vector of
exactly 22 values, whatever keys are present or absent and whatever
values are supplied.  The finiteness half of the original invariant is
false and is not re-asserted: a numeric field supplied as the string
`"inf"` encodes to an infinite element (the counterexample), and the
remaining overflow routes — a JSON float literal such as `1e400` parsing
to `inf`, `float()` raising `OverflowError` on a huge parsed integer, the
`np.float32` cast at line 141 saturating magnitudes above about `3.4e38`
— are IEEE floating-point behaviours outside this exact-rational
embedding. -/
theorem encode_length_invariant (features : FeatureRecord) (v : List PyFloat)
    (h : preprocess_features features = some v) : v.length = 22 := by
  obtain ⟨v0, v6, v7, hA, hG, hB, rfl⟩ := preprocess_shape h
  simp

/-- Witness for the amended C4 at a fully-populated record. -/
theorem encode_length_invariant_witness :
    ([PyFloat.finite 67, .finite 1, .finite 1, .finite 1, .finite 0, .finite 1,
      .finite 120, .finite 28, .finite 1, .finite 2, .finite 0,
      .finite 0, .finite 0, .finite 0, .finite 0, .finite 0, .finite 0, .finite 0,
      .finite 0, .finite 0, .finite 0, .finite 0] : List PyFloat).length = 22 :=
  encode_length_invariant
    [("age", PyVal.num 67), ("hypertension", PyVal.num 1),
     ("heart_disease", PyVal.num 1), ("ever_married", PyVal.num 1),
     ("work_type", PyVal.num 0), ("Residence_type", PyVal.num 1),
     ("avg_glucose_level", PyVal.num 120), ("bmi", PyVal.num 28),
     ("gender", PyVal.str "male"), ("smoking_status", PyVal.str "smokes")]
    _ (by decide)

/-- Claim C6: position 9 of every successfully encoded vector equals the
claim's description of the `smoking_status` encoding — table strings map
after lower-casing, unrecognized strings map to 3, integers pass through,
and an absent key gives 0 — so an unrecognized string (3) and an absent
key (0) encode differently. -/
theorem smoking_status_encoding (features : FeatureRecord) (v : List PyFloat)
    (h : preprocess_features features = some v) :
    v.getD 9 (.finite 0)
      = .finite (smokingStatusSpec (List.lookup "smoking_status" features)) ∧
    smokingStatusSpec (some (PyVal.str "vaping")) = 3 ∧
    smokingStatusSpec none = 0 := by
  obtain ⟨v0, v6, v7, hA, hG, hB, rfl⟩ := preprocess_shape h
  refine ⟨?_, by decide, rfl⟩
  show PyFloat.finite (match getField features "smoking_status" (.num 0) with
      | .str s => (List.lookup (pyLower s) smoking_map).getD 3
      | .num q => q
      | .bool b => if b then 1 else 0)
    = .finite (smokingStatusSpec (List.lookup "smoking_status" features))
  cases hs : List.lookup "smoking_status" features with
  | none => simp [getField, hs, smokingStatusSpec]
  | some val =>
    cases val with
    | num q => simp [getField, hs, smokingStatusSpec]
    | str s2 => simp [getField, hs, smokingStatusSpec, smoking_map]
    | bool b => simp [getField, hs, smokingStatusSpec]

/-- Witness for C6: `"Formerly Smoked"` lower-cases into the table and
encodes to 1; the spec function sends an unknown string to 3 and an
absent key to 0. -/
theorem smoking_status_encoding_witness :
    ([PyFloat.finite 50, .finite 0, .finite 0, .finite 1, .finite 0, .finite 1,
      .finite 100, .finite 25, .finite 0, .finite 1, .finite 0, .finite 0, .finite 0,
      .finite 0, .finite 0, .finite 0, .finite 0, .finite 0, .finite 0, .finite 0,
      .finite 0, .finite 0] : List PyFloat).getD 9 (.finite 0)
      = .finite (smokingStatusSpec
          (List.lookup "smoking_status" [("smoking_status", PyVal.str "Formerly Smoked")])) ∧
    smokingStatusSpec (some (PyVal.str "vaping")) = 3 ∧
    smokingStatusSpec none = 0 :=
  smoking_status_encoding [("smoking_status", PyVal.str "Formerly Smoked")] _ (by decide)
